import Mathlib

/-!
Verification of the storefront front-end's overlay coordinator, menu URL
resolution, fallback menus, cart projection and button logic, shallowly
embedded from the TypeScript sources.
-/

namespace Storefront

/-! ## Overlay coordinator (src/app/components/Aside.tsx)

`AsideType` is the closed union `'search' | 'cart' | 'mobile' | 'closed'`.
The provider holds a single `type` value, initialised to `closed`;
`open` is the raw state setter and `close` sets the state to `closed`.
-/

inductive AsideType where
  | search
  | cart
  | mobile
  | closed
deriving DecidableEq, Repr

/-- An operation on the provider state: `open(mode)` or `close()`. -/
inductive AsideOp where
  | openPanel (mode : AsideType)
  | close
deriving DecidableEq, Repr

/-- One transition of the provider: `open` is `setType`, `close` is
`() => setType('closed')` (Aside.tsx lines 106-122). -/
def asideStep (_s : AsideType) : AsideOp → AsideType
  | AsideOp.openPanel mode => mode
  | AsideOp.close => AsideType.closed

/-- Running a sequence of operations from a freshly initialised provider,
whose initial state is `closed` (`useState<AsideType>('closed')`). -/
def runAside (ops : List AsideOp) : AsideType :=
  ops.foldl asideStep AsideType.closed

/-- Running from an arbitrary state, for reasoning about suffixes. -/
def runAsideFrom (s : AsideType) (ops : List AsideOp) : AsideType :=
  ops.foldl asideStep s

/-! ## useAside (Aside.tsx lines 128-138)

The hook reads the context value; outside a provider the context is `null`
and the hook throws `'useAside must be used within an AsideProvider'`.
We embed the thrown error as `Except String`. The context value carries the
current panel type (the `open`/`close` closures act on provider state and
are represented by the state-transition functions above). -/

structure AsideContextValue where
  type : AsideType
deriving DecidableEq, Repr

def useAsideMessage : String := "useAside must be used within an AsideProvider"

/-- `useAside`: `null` context fails fast with the error message, a present
context is returned unchanged. -/
def useAside (ctx : Option AsideContextValue) : Except String AsideContextValue :=
  match ctx with
  | none => Except.error useAsideMessage
  | some aside => Except.ok aside

/-! ## Escape-key listener (Aside.tsx lines 52-69, PageLayout)

The page layout renders exactly three `Aside` components under one
provider: `cart`, `search` and `mobile`. Each installs a keydown listener
iff it is expanded, i.e. iff its `type` equals the provider's active type;
the listener calls `close()` on the Escape key. -/

def renderedAsides : List AsideType :=
  [AsideType.cart, AsideType.search, AsideType.mobile]

/-- Number of Escape listeners installed while `active` is the provider
state: one per rendered `Aside` whose type equals `active`. -/
def installedEscapeListeners (active : AsideType) : Nat :=
  (renderedAsides.filter (fun t => t = active)).length

/-- Number of `close()` calls an Escape keydown triggers: one per
installed listener. -/
def closeCallsOnEscape (active : AsideType) : Nat :=
  installedEscapeListeners active

/-- Provider state after an Escape keydown: each triggered listener runs
`close()`; with no listener installed the event is not observed. -/
def stateAfterEscape (active : AsideType) : AsideType :=
  if closeCallsOnEscape active = 0 then active
  else runAsideFrom active (List.replicate (closeCallsOnEscape active) AsideOp.close)

/-! ## Menu URL resolution (src Header/Footer menus)

Both `HeaderMenu` and `FooterMenu` process each menu item URL with

    item.url.includes('myshopify.com') ||
    item.url.includes(publicStoreDomain) ||
    item.url.includes(primaryDomainUrl)
      ? new URL(item.url).pathname
      : item.url

`String.prototype.includes` is substring containment over the whole URL
string. `new URL(u).pathname` is modelled for absolute URLs: the part
after the `://`-terminated scheme and the host, up to a query or
fragment, defaulting to `/`. -/

/-- JS `haystack.includes(needle)` on char lists. -/
def listIncludes (pat : List Char) : List Char → Bool
  | [] => pat.isPrefixOf []
  | c :: t => pat.isPrefixOf (c :: t) || listIncludes pat t

/-- JS `s.includes(pat)`. -/
def strIncludes (s pat : String) : Bool :=
  listIncludes pat.data s.data

/-- JS `s.startsWith(pat)`. -/
def strStartsWith (s pat : String) : Bool :=
  pat.data.isPrefixOf s.data

/-- Drop everything up to and including the first `://`; empty when the
string has no scheme separator. -/
def dropSchemeAux : List Char → List Char
  | [] => []
  | c :: t =>
    if [':', '/', '/'].isPrefixOf (c :: t) then t.drop 2
    else dropSchemeAux t

/-- Character can belong to the host portion of a URL. -/
def isHostChar (c : Char) : Bool :=
  c != '/' && c != '?' && c != '#'

/-- The host of an absolute URL: between `://` and the first `/`, `?` or
`#` (empty when there is no scheme). Used for the spec-side classifier. -/
def hostOf (url : String) : String :=
  String.mk ((dropSchemeAux url.data).takeWhile isHostChar)

/-- `new URL(url).pathname` for an absolute URL: from the first `/` after
the host up to a `?` or `#`, defaulting to `/`. -/
def pathnameOf (url : String) : String :=
  let rest := (dropSchemeAux url.data).dropWhile isHostChar
  let p := rest.takeWhile (fun c => c != '?' && c != '#')
  if p.isEmpty then "/" else String.mk p

/-- The source's internal-link test (HeaderMenu lines 93-98, FooterMenu
lines 69-74): the whole URL string contains the literal
`myshopify.com`, the public store domain, or the primary domain URL. -/
def includesInternalDomain (publicStoreDomain primaryDomainUrl url : String) : Bool :=
  strIncludes url "myshopify.com" ||
  strIncludes url publicStoreDomain ||
  strIncludes url primaryDomainUrl

/-- The processed URL a menu item is rendered with: internal links are
stripped to their pathname, others are left unchanged. -/
def resolveMenuUrl (publicStoreDomain primaryDomainUrl url : String) : String :=
  if includesInternalDomain publicStoreDomain primaryDomainUrl url then pathnameOf url
  else url

/-- FooterMenu line 76: `const isExternal = !url.startsWith('/')`,
computed on the processed URL; external footer links are rendered as
new-tab anchors. -/
def footerIsExternalLink (publicStoreDomain primaryDomainUrl url : String) : Bool :=
  !(strStartsWith (resolveMenuUrl publicStoreDomain primaryDomainUrl url) "/")

/-- The spec's classifier, written from the spec's words for comparison
with the source's `includesInternalDomain`: a link is internal iff its
HOST string contains the commerce-platform domain, the public store
domain, or the primary domain. -/
def hostBasedInternal (publicStoreDomain primaryDomainUrl url : String) : Bool :=
  strIncludes (hostOf url) "myshopify.com" ||
  strIncludes (hostOf url) publicStoreDomain ||
  strIncludes (hostOf url) primaryDomainUrl

/-! ## Menus and the hardcoded fallbacks -/

structure MenuItem where
  id : String
  resourceId : Option String
  tags : List String
  title : String
  itemType : String
  url : Option String
  items : List MenuItem

structure Menu where
  id : String
  items : List MenuItem

/-- FALLBACK_HEADER_MENU, embedded verbatim from the source. -/
def FALLBACK_HEADER_MENU : Menu :=
  { id := "gid://shopify/Menu/199655587896"
    items :=
      [ { id := "gid://shopify/MenuItem/461609500728", resourceId := none,
          tags := [], title := "Collections", itemType := "HTTP",
          url := some "/collections", items := [] }
      , { id := "gid://shopify/MenuItem/461609533496", resourceId := none,
          tags := [], title := "Blog", itemType := "HTTP",
          url := some "/blogs/journal", items := [] }
      , { id := "gid://shopify/MenuItem/461609566264", resourceId := none,
          tags := [], title := "Policies", itemType := "HTTP",
          url := some "/policies", items := [] }
      , { id := "gid://shopify/MenuItem/461609599032",
          resourceId := some "gid://shopify/Page/92591030328",
          tags := [], title := "About", itemType := "PAGE",
          url := some "/pages/about", items := [] } ] }

/-- FALLBACK_FOOTER_MENU, embedded verbatim from the source. -/
def FALLBACK_FOOTER_MENU : Menu :=
  { id := "gid://shopify/Menu/199655620664"
    items :=
      [ { id := "gid://shopify/MenuItem/461633060920",
          resourceId := some "gid://shopify/ShopPolicy/23358046264",
          tags := [], title := "Privacy Policy", itemType := "SHOP_POLICY",
          url := some "/policies/privacy-policy", items := [] }
      , { id := "gid://shopify/MenuItem/461633093688",
          resourceId := some "gid://shopify/ShopPolicy/23358013496",
          tags := [], title := "Refund Policy", itemType := "SHOP_POLICY",
          url := some "/policies/refund-policy", items := [] }
      , { id := "gid://shopify/MenuItem/461633126456",
          resourceId := some "gid://shopify/ShopPolicy/23358111800",
          tags := [], title := "Shipping Policy", itemType := "SHOP_POLICY",
          url := some "/policies/shipping-policy", items := [] }
      , { id := "gid://shopify/MenuItem/461633159224",
          resourceId := some "gid://shopify/ShopPolicy/23358079032",
          tags := [], title := "Terms of Service", itemType := "SHOP_POLICY",
          url := some "/policies/terms-of-service", items := [] } ] }

/-- HeaderMenu line 89: `(menu || FALLBACK_HEADER_MENU).items`; the menu
from the header query may be null. -/
def headerMenuItems (menu : Option Menu) : List MenuItem :=
  (menu.getD FALLBACK_HEADER_MENU).items

/-- FooterMenu line 65: `(menu || FALLBACK_FOOTER_MENU).items`. -/
def footerMenuItems (menu : Option Menu) : List MenuItem :=
  (menu.getD FALLBACK_FOOTER_MENU).items

/-- The footer query result: an object holding a possibly-null menu. -/
structure FooterData where
  menu : Option Menu

/-- Footer lines 27-45: `FooterMenu` is rendered only when
`footer?.menu && header.shop.primaryDomain?.url` is truthy; otherwise
the footer element contains no menu at all. -/
def footerRenderedMenuItems (footer : Option FooterData)
    (primaryDomainUrl : Option String) : List MenuItem :=
  match footer with
  | none => []
  | some f =>
    match f.menu, primaryDomainUrl with
    | some m, some _ => footerMenuItems (some m)
    | _, _ => []

/-! ## Optimistic cart projection

Modelled from the spec: the projection itself (`useOptimisticCart`,
called in CartMain.tsx line 46 and by `CartBanner`) lives in the vendor
SDK and is not under src/; only its callers are. The definitions below
follow the spec's §4.2 contract: a pure fold of the ordered pending
intents over the last confirmed snapshot, with `totalQuantity`
recomputed as the sum of projected line quantities and `isOptimistic`
set while any intent is unresolved. Quantities are integers so that the
no-negative-quantity clamp is meaningful. -/

structure CartLine where
  lineId : String
  merchandiseId : String
  quantity : Int
deriving DecidableEq, Repr

structure CartSnapshot where
  lines : List CartLine
  discountCodes : List String
  giftCardCodes : List String
  totalQuantity : Int
deriving DecidableEq, Repr

inductive PendingIntent where
  | addLine (merchandiseId : String) (quantity : Int)
  | updateLine (lineId : String) (quantity : Int)
  | removeLines (lineIds : List String)
  | applyDiscount (codes : List String)
  | applyGiftCard (code : String)
deriving DecidableEq, Repr

structure CartState where
  lines : List CartLine
  discountCodes : List String
  giftCardCodes : List String
deriving DecidableEq, Repr

/-- Append a code unless already present (deduplicated, case-sensitive). -/
def addDedup (acc : List String) (c : String) : List String :=
  if acc.contains c then acc else acc ++ [c]

/-- Sum of line quantities. -/
def sumQuantities (lines : List CartLine) : Int :=
  (lines.map (fun l => l.quantity)).sum

/-- Modelled from the spec: apply one pending intent in submission order.
`AddLine` merges into an existing line with the same merchandise or
appends a fresh line (keyed by the merchandise id until the server
assigns one); `UpdateLine` sets the quantity clamped at floor 0 and a
resulting quantity of 0 removes the line; `RemoveLines` filters the
named ids out; the code intents append deduplicated. -/
def applyIntent (st : CartState) : PendingIntent → CartState
  | PendingIntent.addLine m q =>
    if st.lines.any (fun l => l.merchandiseId = m) then
      { st with lines := st.lines.map (fun l =>
          if l.merchandiseId = m then { l with quantity := l.quantity + q } else l) }
    else
      { st with lines := st.lines ++ [{ lineId := m, merchandiseId := m, quantity := q }] }
  | PendingIntent.updateLine id q =>
    { st with lines := st.lines.filterMap (fun l =>
        if l.lineId = id then
          if max 0 q = 0 then none else some { l with quantity := max 0 q }
        else some l) }
  | PendingIntent.removeLines ids =>
    { st with lines := st.lines.filter (fun l => !(ids.contains l.lineId)) }
  | PendingIntent.applyDiscount codes =>
    { st with discountCodes := codes.foldl addDedup st.discountCodes }
  | PendingIntent.applyGiftCard code =>
    { st with giftCardCodes := addDedup st.giftCardCodes code }

structure ProjectedCart where
  lines : List CartLine
  discountCodes : List String
  giftCardCodes : List String
  totalQuantity : Int
  isOptimistic : Bool
deriving DecidableEq, Repr

/-- Modelled from the spec: `project(snapshot, intents)`, a pure fold of
the intents over the snapshot. -/
def project (s : CartSnapshot) (intents : List PendingIntent) : ProjectedCart :=
  let st := intents.foldl applyIntent
    { lines := s.lines, discountCodes := s.discountCodes, giftCardCodes := s.giftCardCodes }
  { lines := st.lines
    discountCodes := st.discountCodes
    giftCardCodes := st.giftCardCodes
    totalQuantity := sumQuantities st.lines
    isOptimistic := !intents.isEmpty }

/-! ## Cart line quantity controls (src/app/components/CartLineItem.tsx)

`CartLineQuantity` computes
`prevQuantity = Number(Math.max(0, quantity - 1).toFixed(0))` and
`nextQuantity = Number((quantity + 1).toFixed(0))`; the decrement button
submits `UpdateLine{lineId, prevQuantity}`. -/

def prevQuantity (quantity : Int) : Int := max 0 (quantity - 1)

def nextQuantity (quantity : Int) : Int := quantity + 1

/-! ## Gift card removal (CartSummary's CartGiftCard)

`removeAppliedCode` clears the ref holding applied gift-card codes.
The Remove button however is written `onSubmit={() => removeAppliedCode}`:
the arrow function evaluates to the function reference and never invokes
it, so activating the control leaves the applied-code list unchanged. -/

/-- `removeAppliedCode` as defined: clears the applied-code list. -/
def removeAppliedCode (_codes : List String) : List String := []

/-- Effect of activating the Remove control as wired in the source: the
handler body is the bare reference `removeAppliedCode`, not a call, so
the state is untouched. -/
def removeButtonEffect (codes : List String) : List String := codes

/-! ## AddToCartButton (src/app/components/AddToCartButton.tsx)

`disabled={disabled ?? fetcher.state !== 'idle'}`: the optional
`disabled` prop, when present, wins; otherwise the button is disabled
exactly while the fetcher is not idle. -/

def buttonDisabled (disabled : Option Bool) (fetcherState : String) : Bool :=
  disabled.getD (fetcherState != "idle")

/-! ## Concrete inputs used by witnesses -/

def sampleLine : CartLine :=
  { lineId := "gid://shopify/CartLine/1", merchandiseId := "gid://shopify/ProductVariant/11", quantity := 2 }

def sampleLine2 : CartLine :=
  { lineId := "gid://shopify/CartLine/2", merchandiseId := "gid://shopify/ProductVariant/22", quantity := 3 }

def sampleSnapshot : CartSnapshot :=
  { lines := [sampleLine, sampleLine2]
    discountCodes := ["SUMMER10"]
    giftCardCodes := []
    totalQuantity := 5 }

/-! ## Helper lemmas for the cart projection -/

/-- Lines surviving an `UpdateLine` intent come from the old lines:
either untouched (different id) or updated to the clamped quantity. -/
lemma mem_lines_applyIntent_updateLine {st : CartState} {id : String} {q : Int}
    {l : CartLine}
    (hl : l ∈ (applyIntent st (PendingIntent.updateLine id q)).lines) :
    (∃ a ∈ st.lines, a.lineId ≠ id ∧ l = a) ∨
    (∃ a ∈ st.lines, a.lineId = id ∧ l = { a with quantity := max 0 q } ∧
      max 0 q ≠ 0) := by
  simp only [applyIntent, List.mem_filterMap] at hl
  obtain ⟨a, ha, hfa⟩ := hl
  by_cases hid : a.lineId = id
  · rw [if_pos hid] at hfa
    by_cases hq : max 0 q = 0
    · rw [if_pos hq] at hfa
      cases hfa
    · rw [if_neg hq] at hfa
      exact Or.inr ⟨a, ha, hid, (Option.some.inj hfa).symm, hq⟩
  · rw [if_neg hid] at hfa
    exact Or.inl ⟨a, ha, hid, (Option.some.inj hfa).symm⟩

/-- An `UpdateLine` intent preserves nonnegativity of all quantities. -/
lemma applyIntent_updateLine_nonneg {st : CartState} {id : String} {q : Int}
    (h : ∀ l ∈ st.lines, 0 ≤ l.quantity) :
    ∀ l ∈ (applyIntent st (PendingIntent.updateLine id q)).lines, 0 ≤ l.quantity := by
  intro l hl
  rcases mem_lines_applyIntent_updateLine hl with ⟨a, ha, -, hla⟩ | ⟨a, -, -, hla, -⟩
  · rw [hla]
    exact h a ha
  · rw [hla]
    exact le_max_left 0 q

/-- A fold of `UpdateLine` intents preserves nonnegativity. -/
lemma foldl_updateLines_nonneg :
    ∀ (intents : List PendingIntent) (st : CartState),
      (∀ i ∈ intents, ∃ id q, i = PendingIntent.updateLine id q) →
      (∀ l ∈ st.lines, 0 ≤ l.quantity) →
      ∀ l ∈ (intents.foldl applyIntent st).lines, 0 ≤ l.quantity := by
  intro intents
  induction intents with
  | nil =>
    intro st _ h
    simpa using h
  | cons i t ih =>
    intro st hall h
    obtain ⟨id, q, rfl⟩ := hall i (List.mem_cons_self i t)
    simp only [List.foldl_cons]
    exact ih (applyIntent st (PendingIntent.updateLine id q))
      (fun j hj => hall j (List.mem_cons_of_mem _ hj))
      (applyIntent_updateLine_nonneg h)

/-- With a clamped quantity of zero, `UpdateLine` is exactly the removal
of the lines carrying the target id. -/
lemma updateLine_zero_lines (st : CartState) (id : String) (q : Int)
    (hq : max 0 q = 0) :
    (applyIntent st (PendingIntent.updateLine id q)).lines =
      st.lines.filterMap (fun l => if l.lineId = id then none else some l) := by
  simp only [applyIntent]
  apply List.filterMap_congr
  intro a _
  by_cases hid : a.lineId = id
  · rw [if_pos hid, if_pos hq, if_pos hid]
  · rw [if_neg hid, if_neg hid]

/-- No surviving line carries the removed id. -/
lemma filterMap_remove_id_not_mem (id : String) (lines : List CartLine) :
    ∀ l ∈ lines.filterMap (fun a => if a.lineId = id then none else some a),
      l.lineId ≠ id := by
  intro l hl
  simp only [List.mem_filterMap] at hl
  obtain ⟨a, _, hfa⟩ := hl
  by_cases hid : a.lineId = id
  · rw [if_pos hid] at hfa
    cases hfa
  · rw [if_neg hid] at hfa
    obtain rfl := Option.some.inj hfa
    exact hid

/-- Removal is the identity on a list holding no line with the id. -/
lemma filterMap_remove_id_eq_self (id : String) :
    ∀ t : List CartLine, (∀ x ∈ t, x.lineId ≠ id) →
      t.filterMap (fun a => if a.lineId = id then none else some a) = t := by
  intro t
  induction t with
  | nil => intro _; rfl
  | cons a t ih =>
    intro h
    have ha := h a (List.mem_cons_self a t)
    simp only [List.filterMap_cons, if_neg ha]
    rw [ih (fun x hx => h x (List.mem_cons_of_mem _ hx))]

/-- Removing the unique line with the id subtracts exactly its quantity
from the sum. -/
lemma filterMap_remove_id_sum (id : String) :
    ∀ (lines : List CartLine) (l : CartLine),
      (lines.map (fun x => x.lineId)).Nodup → l ∈ lines → l.lineId = id →
      sumQuantities
          (lines.filterMap (fun a => if a.lineId = id then none else some a)) =
        sumQuantities lines - l.quantity := by
  intro lines
  induction lines with
  | nil =>
    intro l _ hmem _
    cases hmem
  | cons a t ih =>
    intro l hnd hmem hid
    have hnotin : a.lineId ∉ t.map (fun x => x.lineId) :=
      (List.nodup_cons.mp (by simpa using hnd)).1
    have hnd' : (t.map (fun x => x.lineId)).Nodup :=
      (List.nodup_cons.mp (by simpa using hnd)).2
    rcases List.mem_cons.mp hmem with rfl | hmt
    · have hrest : ∀ x ∈ t, x.lineId ≠ id := by
        intro x hx hxid
        exact hnotin (hid ▸ hxid ▸ List.mem_map_of_mem (fun y => y.lineId) hx)
      simp only [List.filterMap_cons, if_pos hid]
      rw [filterMap_remove_id_eq_self id t hrest]
      simp [sumQuantities]
    · have haid : a.lineId ≠ id := by
        intro haid
        exact hnotin (haid.trans hid.symm ▸ List.mem_map_of_mem (fun y => y.lineId) hmt)
      simp only [List.filterMap_cons, if_neg haid]
      have := ih l hnd' hmt hid
      simp only [sumQuantities, List.map_cons, List.sum_cons] at this ⊢
      omega

/-! ## Theorems -/

/-- C1: for every sequence of overlay operations applied to a freshly
initialized coordinator (initial state `closed`), `current()` returns the
panel of the most recent `open` until a `close()` occurs, after which it
returns `closed`; the state is always exactly one of the four panel
values (mutual exclusion is enforced by the single enum-valued state). -/
theorem aside_current_tracks_last_open :
    (∀ (ops : List AsideOp) (p : AsideType),
        runAside (ops ++ [AsideOp.openPanel p]) = p) ∧
    (∀ ops : List AsideOp, runAside (ops ++ [AsideOp.close]) = AsideType.closed) ∧
    runAside [] = AsideType.closed ∧
    (∀ ops : List AsideOp,
        runAside ops = AsideType.closed ∨ runAside ops = AsideType.search ∨
        runAside ops = AsideType.cart ∨ runAside ops = AsideType.mobile) := by
  refine ⟨?_, ?_, rfl, ?_⟩
  · intro ops p
    simp [runAside, List.foldl_append, asideStep]
  · intro ops
    simp [runAside, List.foldl_append, asideStep]
  · intro ops
    cases h : runAside ops <;> simp

/-- C8: the overlay operations are idempotent: a second `open(p)` right
after an `open(p)` leaves the state unchanged, and so does a second
`close()` after a `close()`; `open` performs no validation and always
sets the state to its argument, the panel id being a closed enum. -/
theorem aside_open_close_idempotent :
    (∀ (ops : List AsideOp) (p : AsideType),
        runAside (ops ++ [AsideOp.openPanel p, AsideOp.openPanel p]) =
          runAside (ops ++ [AsideOp.openPanel p])) ∧
    (∀ ops : List AsideOp,
        runAside (ops ++ [AsideOp.close, AsideOp.close]) =
          runAside (ops ++ [AsideOp.close])) ∧
    (∀ (s p : AsideType), asideStep s (AsideOp.openPanel p) = p) := by
  refine ⟨?_, ?_, fun s p => rfl⟩
  · intro ops p
    simp [runAside, List.foldl_append, asideStep]
  · intro ops
    simp [runAside, List.foldl_append, asideStep]

/-- C5: accessing the overlay coordinator outside an initialized provider
scope fails fast with an error whose message names the missing provider
(`AsideProvider`); inside a provider scope the hook returns the context
and never throws. -/
theorem useAside_fails_fast_outside_provider :
    useAside none = Except.error useAsideMessage ∧
    strIncludes useAsideMessage "AsideProvider" = true ∧
    (∀ v : AsideContextValue, useAside (some v) = Except.ok v) :=
  ⟨rfl, by decide, fun v => rfl⟩

/-- C6: while `activePanel = search` exactly one Escape listener is
installed (only the expanded panel's), so an Escape keydown triggers
exactly one `close()` call and the state becomes `closed`; while
`activePanel = closed` no listener is installed, an Escape keydown
triggers zero `close()` calls and the state is unchanged; no state ever
installs more than one listener. -/
theorem escape_key_close_semantics :
    closeCallsOnEscape AsideType.search = 1 ∧
    stateAfterEscape AsideType.search = AsideType.closed ∧
    closeCallsOnEscape AsideType.closed = 0 ∧
    stateAfterEscape AsideType.closed = AsideType.closed ∧
    (∀ active : AsideType, installedEscapeListeners active ≤ 1) := by
  refine ⟨by decide, by decide, by decide, by decide, ?_⟩
  intro active
  cases active <;> decide

/-- C9: the gift-card Remove control does not clear the applied-code
list: its handler is the arrow function returning the bare reference
`removeAppliedCode` without invoking it, so activating the control
leaves the list unchanged, while an actual invocation would empty it. -/
theorem giftcard_remove_handler_noop :
    removeButtonEffect ["GIFT1234"] = ["GIFT1234"] ∧
    removeButtonEffect ["GIFT1234"] ≠ ([] : List String) ∧
    removeAppliedCode ["GIFT1234"] = [] := by
  refine ⟨rfl, by decide, rfl⟩

/-- C10: when the `disabled` prop is absent the submit button is disabled
exactly while the cart-add fetcher is not idle; when the prop is supplied
its value alone determines the disabled state, whatever the fetcher
state. -/
theorem addToCart_disabled_logic :
    (∀ st : String, buttonDisabled none st = true ↔ st ≠ "idle") ∧
    (∀ (b : Bool) (st : String), buttonDisabled (some b) st = b) := by
  constructor
  · intro st
    simp [buttonDisabled]
  · intro b st
    rfl

/-- C10 witness: with no `disabled` prop a submitting fetcher disables
the button, and `disabled := false` overrides the in-flight check. -/
theorem addToCart_disabled_logic_witness :
    buttonDisabled none "submitting" = true ∧
    buttonDisabled (some false) "submitting" = false :=
  ⟨(addToCart_disabled_logic.1 "submitting").mpr (by decide),
    addToCart_disabled_logic.2 false "submitting"⟩

/-- C2 counterexample: the source classifies by substring containment
over the WHOLE URL string, not over its host: the external link
`https://evil.example/?ref=demo.myshopify.com` (host `evil.example`)
is classified internal by the code and stripped to `/`, while the
claimed host-based rule classifies it external; moreover the footer
renders a domain-free relative link such as `/misc` — external under
the claimed rule — as an ordinary navigation link, not as a new-tab
anchor. -/
theorem menu_classifier_host_counterexample :
    includesInternalDomain "shop.example" "https://shop.example"
        "https://evil.example/?ref=demo.myshopify.com" = true ∧
    hostBasedInternal "shop.example" "https://shop.example"
        "https://evil.example/?ref=demo.myshopify.com" = false ∧
    resolveMenuUrl "shop.example" "https://shop.example"
        "https://evil.example/?ref=demo.myshopify.com" = "/" ∧
    hostBasedInternal "shop.example" "https://shop.example" "/misc" = false ∧
    footerIsExternalLink "shop.example" "https://shop.example" "/misc" = false := by
  refine ⟨by decide, by decide, by decide, by decide, by decide⟩

/-- C2 amended: a menu link is classified internal iff its full URL
string contains the literal commerce-platform domain `myshopify.com`,
the public store domain, or the primary domain URL; an internal link is
stripped to its pathname, an external link's URL is left unchanged; the
footer (alone) renders a link as a new-tab anchor exactly when its
processed URL does not start with `/`. The spec's concrete examples
hold: with primary domain `example.myshopify.com`, the link
`https://example.myshopify.com/pages/about` resolves to `/pages/about`,
while `https://otherstore.com/x` is unchanged and marked external. -/
theorem menu_url_resolution_amended (publicStoreDomain primaryDomainUrl url : String) :
    (includesInternalDomain publicStoreDomain primaryDomainUrl url = true →
        resolveMenuUrl publicStoreDomain primaryDomainUrl url = pathnameOf url) ∧
    (includesInternalDomain publicStoreDomain primaryDomainUrl url = false →
        resolveMenuUrl publicStoreDomain primaryDomainUrl url = url) ∧
    footerIsExternalLink publicStoreDomain primaryDomainUrl url =
      !(strStartsWith (resolveMenuUrl publicStoreDomain primaryDomainUrl url) "/") ∧
    resolveMenuUrl "shop.example" "https://example.myshopify.com"
        "https://example.myshopify.com/pages/about" = "/pages/about" ∧
    resolveMenuUrl "shop.example" "https://example.myshopify.com"
        "https://otherstore.com/x" = "https://otherstore.com/x" ∧
    footerIsExternalLink "shop.example" "https://example.myshopify.com"
        "https://otherstore.com/x" = true := by
  refine ⟨?_, ?_, rfl, by decide, by decide, by decide⟩
  · intro h
    simp [resolveMenuUrl, h]
  · intro h
    simp [resolveMenuUrl, h]

/-- C2 witness: the amended theorem applied to the spec's internal-link
example. -/
theorem menu_url_resolution_amended_witness :
    resolveMenuUrl "shop.example" "https://example.myshopify.com"
        "https://example.myshopify.com/pages/about" =
      pathnameOf "https://example.myshopify.com/pages/about" :=
  (menu_url_resolution_amended "shop.example" "https://example.myshopify.com"
      "https://example.myshopify.com/pages/about").1 (by decide)

/-- C7 counterexample: when the footer query's menu is null the `Footer`
component's guard `footer?.menu && ...` prevents `FooterMenu` from
rendering at all, so the footer shows no menu items — not the four
fallback policy links the claim requires. -/
theorem footer_fallback_unreachable_counterexample :
    footerRenderedMenuItems (some { menu := none }) (some "https://shop.example") = [] ∧
    footerRenderedMenuItems (some { menu := none }) (some "https://shop.example") ≠
      FALLBACK_FOOTER_MENU.items := by
  constructor
  · rfl
  · intro h
    have hlen := congrArg List.length h
    simp [footerRenderedMenuItems, footerMenuItems, FALLBACK_FOOTER_MENU] at hlen

/-- C7 amended: when the header query's menu is null the header renders
the hardcoded fallback menu with exactly the items Collections, Blog,
Policies and About, with the exact hardcoded ids and URLs; the footer's
hardcoded fallback likewise holds exactly the four policy links with
their exact ids and URLs, but it is unreachable: whenever the footer
query returns nothing (or the primary domain is absent) the footer
renders no menu items at all. -/
theorem fallback_menus_amended :
    headerMenuItems none = FALLBACK_HEADER_MENU.items ∧
    (headerMenuItems none).map (fun i => i.title) =
      ["Collections", "Blog", "Policies", "About"] ∧
    (headerMenuItems none).map (fun i => i.url) =
      [some "/collections", some "/blogs/journal", some "/policies",
        some "/pages/about"] ∧
    (headerMenuItems none).map (fun i => i.id) =
      ["gid://shopify/MenuItem/461609500728", "gid://shopify/MenuItem/461609533496",
        "gid://shopify/MenuItem/461609566264", "gid://shopify/MenuItem/461609599032"] ∧
    footerMenuItems none = FALLBACK_FOOTER_MENU.items ∧
    (footerMenuItems none).map (fun i => i.title) =
      ["Privacy Policy", "Refund Policy", "Shipping Policy", "Terms of Service"] ∧
    (footerMenuItems none).map (fun i => i.url) =
      [some "/policies/privacy-policy", some "/policies/refund-policy",
        some "/policies/shipping-policy", some "/policies/terms-of-service"] ∧
    (footerMenuItems none).map (fun i => i.id) =
      ["gid://shopify/MenuItem/461633060920", "gid://shopify/MenuItem/461633093688",
        "gid://shopify/MenuItem/461633126456", "gid://shopify/MenuItem/461633159224"] ∧
    (∀ p : Option String, footerRenderedMenuItems none p = []) ∧
    (∀ p : Option String, footerRenderedMenuItems (some { menu := none }) p = []) ∧
    (∀ m : Menu, footerRenderedMenuItems (some { menu := some m }) none = []) := by
  refine ⟨rfl, rfl, rfl, rfl, rfl, rfl, rfl, rfl, fun p => rfl, ?_, fun m => rfl⟩
  intro p
  cases p <;> rfl

/-- C3: for a well-formed snapshot (its `totalQuantity` is the sum of its
line quantities, as holds for every confirmed API cart), the optimistic
projection with an empty pending-intent queue is the identity: same
lines, same codes, same total quantity, and the result is not marked
optimistic. `project` is a pure function by construction. -/
theorem project_empty_intents_identity (s : CartSnapshot)
    (h : s.totalQuantity = sumQuantities s.lines) :
    (project s []).lines = s.lines ∧
    (project s []).discountCodes = s.discountCodes ∧
    (project s []).giftCardCodes = s.giftCardCodes ∧
    (project s []).totalQuantity = s.totalQuantity ∧
    (project s []).isOptimistic = false :=
  ⟨rfl, rfl, rfl, h.symm, rfl⟩

/-- C3 witness: the identity at a concrete two-line snapshot. -/
theorem project_empty_intents_identity_witness :
    (project sampleSnapshot []).lines = sampleSnapshot.lines ∧
    (project sampleSnapshot []).discountCodes = sampleSnapshot.discountCodes ∧
    (project sampleSnapshot []).giftCardCodes = sampleSnapshot.giftCardCodes ∧
    (project sampleSnapshot []).totalQuantity = sampleSnapshot.totalQuantity ∧
    (project sampleSnapshot []).isOptimistic = false :=
  project_empty_intents_identity sampleSnapshot (by decide)

/-- C4: the decrement control clamps at floor 0 (`prevQuantity` is never
negative); for every sequence of `UpdateLine` intents over a snapshot
with nonnegative quantities, every projected quantity stays nonnegative;
and an `UpdateLine` with quantity 0 on a line of a snapshot with unique
line ids removes that line from the projection and decreases the
projected total quantity by exactly that line's prior quantity. -/
theorem updateLine_clamp_and_removal :
    (∀ q : Int, 0 ≤ prevQuantity q) ∧
    (∀ (s : CartSnapshot) (intents : List PendingIntent),
        (∀ i ∈ intents, ∃ id q, i = PendingIntent.updateLine id q) →
        (∀ l ∈ s.lines, 0 ≤ l.quantity) →
        ∀ l ∈ (project s intents).lines, 0 ≤ l.quantity) ∧
    (∀ (s : CartSnapshot) (id : String) (l : CartLine),
        (s.lines.map (fun x => x.lineId)).Nodup → l ∈ s.lines → l.lineId = id →
        (∀ l' ∈ (project s [PendingIntent.updateLine id 0]).lines, l'.lineId ≠ id) ∧
        (project s [PendingIntent.updateLine id 0]).totalQuantity =
          (project s []).totalQuantity - l.quantity) := by
  refine ⟨fun q => le_max_left 0 (q - 1), ?_, ?_⟩
  · intro s intents hall h
    exact foldl_updateLines_nonneg intents
      { lines := s.lines, discountCodes := s.discountCodes,
        giftCardCodes := s.giftCardCodes } hall h
  · intro s id l hnd hmem hid
    have hlines :
        (project s [PendingIntent.updateLine id 0]).lines =
          s.lines.filterMap (fun a => if a.lineId = id then none else some a) :=
      updateLine_zero_lines
        { lines := s.lines, discountCodes := s.discountCodes,
          giftCardCodes := s.giftCardCodes } id 0 (by decide)
    constructor
    · intro l' hl'
      rw [hlines] at hl'
      exact filterMap_remove_id_not_mem id s.lines l' hl'
    · show sumQuantities (project s [PendingIntent.updateLine id 0]).lines =
        sumQuantities s.lines - l.quantity
      rw [hlines]
      exact filterMap_remove_id_sum id s.lines l hnd hmem hid

/-- C4 witness: the clamp and the zero-quantity removal at a concrete
snapshot and line, and the nonnegativity preserved under a clamped
negative update. -/
theorem updateLine_clamp_and_removal_witness :
    (0 : Int) ≤ prevQuantity 5 ∧
    (∀ l' ∈ (project sampleSnapshot
        [PendingIntent.updateLine "gid://shopify/CartLine/1" 0]).lines,
      l'.lineId ≠ "gid://shopify/CartLine/1") ∧
    (project sampleSnapshot
        [PendingIntent.updateLine "gid://shopify/CartLine/1" 0]).totalQuantity =
      (project sampleSnapshot []).totalQuantity - sampleLine.quantity ∧
    (∀ l ∈ (project sampleSnapshot
        [PendingIntent.updateLine "gid://shopify/CartLine/2" (-3)]).lines,
      0 ≤ l.quantity) := by
  refine ⟨updateLine_clamp_and_removal.1 5, ?_, ?_, ?_⟩
  · exact (updateLine_clamp_and_removal.2.2 sampleSnapshot "gid://shopify/CartLine/1"
      sampleLine (by decide) (by decide) (by decide)).1
  · exact (updateLine_clamp_and_removal.2.2 sampleSnapshot "gid://shopify/CartLine/1"
      sampleLine (by decide) (by decide) (by decide)).2
  · refine updateLine_clamp_and_removal.2.1 sampleSnapshot
      [PendingIntent.updateLine "gid://shopify/CartLine/2" (-3)] ?_ (by decide)
    intro i hi
    rw [List.mem_singleton] at hi
    exact ⟨"gid://shopify/CartLine/2", -3, hi⟩

end Storefront
